import Mathlib

/-!
Verification development for the loader and bring-up core of the
Bareflank-style bare-metal hypervisor.  The C sources are shallowly
embedded: machine integers become Nat with explicit masking / modular
reduction where overflow matters, pointers become Nat (0 = NULL) or
Option, fallible functions return Option or an explicit status code,
and global state is passed explicitly.
-/

/-! ## GDT descriptor accessors

Embedding of get_gdt_descriptor_base and get_gdt_descriptor_attrib.
A global_descriptor_table_register_t holds a pointer to an array of
64-bit descriptor words and a 16-bit limit.  The array pointer is
modelled as a total function from word index to word value (memory
beyond the table exists in C, so out-of-bounds words are arbitrary);
the possibly-NULL gdtr pointer is an Option, and the possibly-NULL
output pointer is a Bool flag.  A result of none models returning
LOADER_FAILURE; some v models success with v written to the output. -/

/-! ## Page table entry layout

Embedding of struct pte_t (pte_t.h): a packed 64-bit record whose
bitfields are allocated from bit 0 upward in declaration order with
widths 1,1,1,1,1,1,1,1,1,3,40,7,4,1.  The record is embedded as one
Nat per field plus a well-formedness predicate giving each field its
declared width, and pte_t.toBits packs the fields exactly as the
C bitfield allocation does. -/

/-! ## Spans and the pool allocators

Embedding of span_t / mutable_span_t and of alloc_mk_stack and
alloc_mk_huge_pool.  Pointers are Nat with 0 = NULL.  The platform
allocator (platform_alloc / platform_alloc_contiguous, an external
Platform Port operation) is passed as a function from requested size
to returned pointer, 0 modelling an OOM NULL return. -/

/-! ## Debug ring teardown -/

/-- LOADER_SUCCESS status code (types.h): 0 on success. -/
def LOADER_SUCCESS : Int := 0

/-- LOADER_FAILURE status code (types.h): -1 on failure. -/
def LOADER_FAILURE : Int := -1

structure global_descriptor_table_register_t where
  base : Nat → Nat
  limit : Nat

/-- BASE_MASK1: first set of bits of the base field. -/
def BASE_MASK1 : Nat := 0x00000000FFFF0000

/-- BASE_MASK2: second set of bits of the base field. -/
def BASE_MASK2 : Nat := 0x000000FF00000000

/-- BASE_MASK3: third set of bits of the base field. -/
def BASE_MASK3 : Nat := 0xFF00000000000000

/-- BASE_MASK4: fourth set of bits of the base field. -/
def BASE_MASK4 : Nat := 0x00000000FFFFFFFF

/-- SYSTEM_BIT: the S bit in the attrib field (bit 44). -/
def SYSTEM_BIT : Nat := 0x0000100000000000

/-- ATTRIB_MASK1: first set of bits of the attrib field. -/
def ATTRIB_MASK1 : Nat := 0x0000FF0000000000

/-- ATTRIB_MASK2: second set of bits of the attrib field. -/
def ATTRIB_MASK2 : Nat := 0x00F0000000000000

/-- Embedding of get_gdt_descriptor_base.  bytes64_1 is computed in C as
the uint64 expression gdtr->limit + 1 - sizeof(uint64_t), which wraps
modulo 2^64 when limit + 1 < 8; the wraparound is kept explicit. -/
def get_gdt_descriptor_base :
    Option global_descriptor_table_register_t → Nat → Bool → Option Nat
  | none, _, _ => none
  | some gdtr, selector, baseIsNull =>
    let idx64_0 : Nat := (selector >>> 3) + 0
    let idx64_1 : Nat := (selector >>> 3) + 1
    let bytes64_0 : Nat := gdtr.limit + 1
    let bytes64_1 : Nat := (gdtr.limit + 1 + (2 ^ 64 - 8)) % 2 ^ 64
    if baseIsNull then
      none
    else if idx64_0 = 0 then
      some 0
    else if bytes64_0 / 8 ≤ idx64_0 then
      none
    else if gdtr.base idx64_0 &&& SYSTEM_BIT = 0 then
      if bytes64_1 / 8 ≤ idx64_1 then
        none
      else
        some (((gdtr.base idx64_0 &&& BASE_MASK1) >>> 16) |||
              ((gdtr.base idx64_0 &&& BASE_MASK2) >>> 16) |||
              ((gdtr.base idx64_0 &&& BASE_MASK3) >>> 32) |||
              ((gdtr.base idx64_1 &&& BASE_MASK4) <<< 32))
    else
      some (((gdtr.base idx64_0 &&& BASE_MASK1) >>> 16) |||
            ((gdtr.base idx64_0 &&& BASE_MASK2) >>> 16) |||
            ((gdtr.base idx64_0 &&& BASE_MASK3) >>> 32))

/-- Embedding of get_gdt_descriptor_attrib.  The two uint16_t casts in
the source are lossless because the masked-and-shifted values fit in
16 bits, so they are omitted here. -/
def get_gdt_descriptor_attrib :
    Option global_descriptor_table_register_t → Nat → Bool → Option Nat
  | none, _, _ => none
  | some gdtr, selector, attribIsNull =>
    let idx64 : Nat := selector >>> 3
    let bytes64 : Nat := gdtr.limit + 1
    if attribIsNull then
      none
    else if idx64 = 0 then
      some 0
    else if bytes64 / 8 ≤ idx64 then
      none
    else
      some (((gdtr.base idx64 &&& ATTRIB_MASK1) >>> 40) |||
            ((gdtr.base idx64 &&& ATTRIB_MASK2) >>> 40))

/-- A GDT whose descriptor at index 5 is a standard long-mode 8-byte
descriptor (System bit set) storing base 0x00000000FFFFAB00. -/
def gdt_with_std_descriptor : global_descriptor_table_register_t :=
  ⟨fun i => if i = 5 then 0xFF0010FFAB000000 else 0, 63⟩

/-- A GDT whose descriptor at index 5 has the System bit clear (a
16-byte system descriptor) and whose entry at index 6 holds the upper
base bits 0x12345678 in its low dword; limit 63 gives 8 entries. -/
def gdt_with_sys16_descriptor : global_descriptor_table_register_t :=
  ⟨fun i => if i = 6 then 0x12345678 else 0, 63⟩

structure pte_t where
  p : Nat
  rw : Nat
  us : Nat
  pwt : Nat
  pcd : Nat
  a : Nat
  d : Nat
  pat : Nat
  g : Nat
  avl : Nat
  phys : Nat
  auto_release : Nat
  mpk : Nat
  nx : Nat

/-- Each field of a pte_t fits in its declared bitfield width. -/
def pte_t.wf (e : pte_t) : Prop :=
  e.p < 2 ^ 1 ∧ e.rw < 2 ^ 1 ∧ e.us < 2 ^ 1 ∧ e.pwt < 2 ^ 1 ∧
  e.pcd < 2 ^ 1 ∧ e.a < 2 ^ 1 ∧ e.d < 2 ^ 1 ∧ e.pat < 2 ^ 1 ∧
  e.g < 2 ^ 1 ∧ e.avl < 2 ^ 3 ∧ e.phys < 2 ^ 40 ∧
  e.auto_release < 2 ^ 7 ∧ e.mpk < 2 ^ 4 ∧ e.nx < 2 ^ 1

instance (e : pte_t) : Decidable e.wf := by
  unfold pte_t.wf
  infer_instance

/-- The packed 64-bit value of a pte_t, fields allocated from bit 0
upward in declaration order (C packed little-endian bitfields). -/
def pte_t.toBits (e : pte_t) : Nat :=
  e.p + 2 ^ 1 * e.rw + 2 ^ 2 * e.us + 2 ^ 3 * e.pwt + 2 ^ 4 * e.pcd +
  2 ^ 5 * e.a + 2 ^ 6 * e.d + 2 ^ 7 * e.pat + 2 ^ 8 * e.g +
  2 ^ 9 * e.avl + 2 ^ 12 * e.phys + 2 ^ 52 * e.auto_release +
  2 ^ 59 * e.mpk + 2 ^ 63 * e.nx

/-- A concrete well-formed pte_t with distinct field values. -/
def pte_example : pte_t :=
  ⟨1, 0, 1, 0, 1, 0, 1, 0, 1, 5, 0xABCDE, 42, 9, 1⟩

structure span_t where
  addr : Nat
  size : Nat
deriving DecidableEq

structure mutable_span_t where
  addr : Nat
  size : Nat
deriving DecidableEq

/-- The span invariant from the data model: either both fields are zero
(the empty value) or the size is positive and the addr non-null. -/
def span_invariant (addr size : Nat) : Prop :=
  (addr = 0 ∧ size = 0) ∨ (0 < size ∧ addr ≠ 0)

/-- Modelled from the spec: HYPERVISOR_MK_STACK_SIZE (constants.h is not
among the embedded sources; the spec fixes it at build time without
giving a value).  Only its positivity is relied on. -/
def HYPERVISOR_MK_STACK_SIZE : Nat := 0x8000

/-- Modelled from the spec: HYPERVISOR_HUGE_POOL_SIZE (constants.h is
not among the embedded sources).  Only its positivity is relied on. -/
def HYPERVISOR_HUGE_POOL_SIZE : Nat := 0x100000

/-- HYPERVISOR_PAGE_SIZE: 4 KiB (spec constant PAGE_SIZE = 4096). -/
def HYPERVISOR_PAGE_SIZE : Nat := 4096

/-- Embedding of alloc_mk_stack: writes the size field (default when
the page count is 0), then allocates through platform_alloc; on a NULL
return it zero-fills the whole span and fails. -/
def alloc_mk_stack (size : Nat) (platform_alloc : Nat → Nat)
    (stack : span_t) : Int × span_t :=
  let stack1 : span_t :=
    { stack with
      size := if size = 0 then HYPERVISOR_MK_STACK_SIZE
              else HYPERVISOR_PAGE_SIZE * size }
  let stack2 : span_t := { stack1 with addr := platform_alloc stack1.size }
  if stack2.addr = 0 then (LOADER_FAILURE, ⟨0, 0⟩)
  else (LOADER_SUCCESS, stack2)

/-- Embedding of alloc_mk_huge_pool: identical shape, with the default
HYPERVISOR_HUGE_POOL_SIZE and platform_alloc_contiguous. -/
def alloc_mk_huge_pool (size : Nat) (platform_alloc_contiguous : Nat → Nat)
    (huge_pool : mutable_span_t) : Int × mutable_span_t :=
  let pool1 : mutable_span_t :=
    { huge_pool with
      size := if size = 0 then HYPERVISOR_HUGE_POOL_SIZE
              else HYPERVISOR_PAGE_SIZE * size }
  let pool2 : mutable_span_t :=
    { pool1 with addr := platform_alloc_contiguous pool1.size }
  if pool2.addr = 0 then (LOADER_FAILURE, ⟨0, 0⟩)
  else (LOADER_SUCCESS, pool2)

/-- Modelled from the spec: HYPERVISOR_DEBUG_RING_SIZE (constants.h is
not among the embedded sources; the spec only requires a 4 KiB-granular
region).  The value is irrelevant to the embedded behavior. -/
def HYPERVISOR_DEBUG_RING_SIZE : Nat := 0x8000

/-- State touched by free_mk_debug_ring: the caller's debug-ring handle
(a pointer, 0 = NULL) and the list of regions released so far. -/
structure debug_ring_free_state where
  ptr : Nat
  freed : List Nat
deriving DecidableEq

/-- Modelled from the spec: platform_free (Platform Port contract, §6)
is idempotent on null — freeing NULL is a no-op; freeing a non-null
pointer releases the region, recorded by appending it to the list of
freed regions.  The platform port is external to the embedded
sources. -/
def platform_free (ptr size : Nat) (freed : List Nat) : List Nat :=
  if ptr = 0 then freed else freed ++ [ptr]

/-- Embedding of free_mk_debug_ring: platform_free the handle, then
null it. -/
def free_mk_debug_ring (s : debug_ring_free_state) : debug_ring_free_state :=
  { ptr := 0,
    freed := platform_free s.ptr HYPERVISOR_DEBUG_RING_SIZE s.freed }


/-! ## Argument validation and the start state machine

Embedding of verify_start_vmm_args, start_vmm and
alloc_and_start_the_vmm (start_vmm.c).  constants.h is not among the
embedded sources, so HYPERVISOR_MAX_EXTENSIONS and
HYPERVISOR_MAX_ELF_FILE_SIZE are passed as parameters.  The
orchestrator is embedded as a state machine over the global VMM status
whose steps can be made to fail through an explicit fault environment;
it returns the status code, the final status and the trace of
acquisition / release actions it performed, mirroring the source's
call sequence and goto cleanup chain. -/

structure start_vmm_args_t where
  ver : Nat
  mk_elf_file : span_t
  ext_elf_files : Nat → span_t
  page_pool_size : Nat

/-- Body of the extension validation loop in verify_start_vmm_args:
true when index idx passes (no early LOADER_FAILURE return). -/
def verify_ext_elf_file (maxElfFileSize : Nat) (f : span_t) : Bool :=
  if f.addr = 0 ∧ f.size ≠ 0 then false
  else if f.size = 0 ∧ f.addr ≠ 0 then false
  else if maxElfFileSize ≤ f.size then false
  else true

/-- Embedding of verify_start_vmm_args. -/
def verify_start_vmm_args (maxExtensions maxElfFileSize : Nat)
    (args : start_vmm_args_t) : Int :=
  if args.ver ≠ 1 then LOADER_FAILURE
  else if args.mk_elf_file.addr = 0 then LOADER_FAILURE
  else if args.mk_elf_file.size = 0 then LOADER_FAILURE
  else if maxElfFileSize ≤ args.mk_elf_file.size then LOADER_FAILURE
  else if (args.ext_elf_files 0).addr = 0 then LOADER_FAILURE
  else if (List.range maxExtensions).all
      (fun idx => verify_ext_elf_file maxElfFileSize (args.ext_elf_files idx))
  then LOADER_SUCCESS
  else LOADER_FAILURE

inductive vmm_status_t
  | stopped
  | running
  | corrupt
deriving DecidableEq

/-- The steps of the ordered acquisition sequence of
alloc_and_start_the_vmm, in source order: A2 root page table, A3
microkernel ELF copy, A4 extension ELF copies, A5 ELF segments, A6
page pool, A7 huge pool, M1-M7 mappings, X1 per-CPU fan-out. -/
inductive loader_step
  | rootPageTable
  | mkElfFile
  | extElfFiles
  | mkElfSegments
  | pagePool
  | hugePool
  | mapDebugRing
  | mapCodeAliases
  | mapMkElfFile
  | mapExtElfFiles
  | mapMkElfSegments
  | mapPagePool
  | mapHugePool
  | startPerCpu
deriving DecidableEq

/-- Steps that allocate a resource with a dedicated free_* function in
the goto cleanup chain (the M1-M7 mappings live inside the root page
table and are released with it; X1 is undone by the reverse fan-out). -/
def loader_step.isAlloc : loader_step → Bool
  | .rootPageTable => true
  | .mkElfFile => true
  | .extElfFiles => true
  | .mkElfSegments => true
  | .pagePool => true
  | .hugePool => true
  | _ => false

/-- The acquisition order of alloc_and_start_the_vmm. -/
def acquisition_order : List loader_step :=
  [.rootPageTable, .mkElfFile, .extElfFiles, .mkElfSegments, .pagePool,
   .hugePool, .mapDebugRing, .mapCodeAliases, .mapMkElfFile,
   .mapExtElfFiles, .mapMkElfSegments, .mapPagePool, .mapHugePool,
   .startPerCpu]

/-- Observable actions of the orchestrator: the A1 debug-ring cursor
reset, completing a step, the reverse-order per-CPU stop fan-out
(carrying whether it failed), releasing a resource, and the implicit
stop of a still-running VMM on entry. -/
inductive loader_event
  | resetDebugRing
  | acquire (s : loader_step)
  | stopCpusReverse (failed : Bool)
  | release (s : loader_step)
  | stopAndFree
deriving DecidableEq

/-- Fault environment: which steps fail, whether the reverse per-CPU
stop fan-out after an X1 failure fails, and whether the implicit
stop_and_free_the_vmm on a running VMM fails. -/
structure loader_env where
  stepFails : loader_step → Bool
  reverseStopFails : Bool
  stopAndFreeFails : Bool

/-- Cleanup run from label alloc_and_copy_mk_root_page_table_failed. -/
def label_root_page_table_failed : List loader_event := []

/-- Cleanup run from label alloc_and_copy_mk_elf_file_from_user_failed. -/
def label_mk_elf_file_failed : List loader_event :=
  loader_event.release .rootPageTable :: label_root_page_table_failed

/-- Cleanup run from label alloc_and_copy_ext_elf_files_from_user_failed. -/
def label_ext_elf_files_failed : List loader_event :=
  loader_event.release .mkElfFile :: label_mk_elf_file_failed

/-- Cleanup run from label alloc_and_copy_mk_elf_segments_failed. -/
def label_mk_elf_segments_failed : List loader_event :=
  loader_event.release .extElfFiles :: label_ext_elf_files_failed

/-- Cleanup run from label alloc_mk_page_pool_failed. -/
def label_page_pool_failed : List loader_event :=
  loader_event.release .mkElfSegments :: label_mk_elf_segments_failed

/-- Cleanup run from label alloc_mk_huge_pool_failed. -/
def label_huge_pool_failed : List loader_event :=
  loader_event.release .pagePool :: label_page_pool_failed

/-- Cleanup run from the seven map_*_failed labels. -/
def label_map_failed : List loader_event :=
  loader_event.release .hugePool :: label_huge_pool_failed

/-- Cleanup run from label start_vmm_per_cpu_failed: the reverse
per-CPU stop fan-out (its failure is only logged), then all frees. -/
def label_start_per_cpu_failed (reverseStopFailed : Bool) :
    List loader_event :=
  loader_event.stopCpusReverse reverseStopFailed :: label_map_failed

/-- Modelled from the spec: stop_and_free_the_vmm (stop_vmm.c is not
among the embedded sources).  Per the VmmStatus transitions, a
successful stop yields Stopped and a failing per-CPU stop step yields
Corrupt.  Its resource effects are summarized by the stopAndFree
event. -/
def stop_and_free_the_vmm (env : loader_env) : vmm_status_t :=
  if env.stopAndFreeFails then .corrupt else .stopped

/-- Embedding of alloc_and_start_the_vmm: the entry checks on the
global status, the A1 cursor reset, the thirteen acquisition steps,
the X1 fan-out, and the goto cleanup chain.  Returns the status code,
the final global status and the performed actions. -/
def alloc_and_start_the_vmm (status : vmm_status_t) (env : loader_env) :
    Int × vmm_status_t × List loader_event :=
  let status1 := if status = vmm_status_t.running
    then stop_and_free_the_vmm env else status
  let evs := if status = vmm_status_t.running
    then [loader_event.stopAndFree] else []
  if status1 = vmm_status_t.corrupt then
    (LOADER_FAILURE, status1, evs)
  else
  let evs := evs ++ [loader_event.resetDebugRing]
  if env.stepFails .rootPageTable then
    (LOADER_FAILURE, status1, evs ++ label_root_page_table_failed)
  else
  let evs := evs ++ [loader_event.acquire .rootPageTable]
  if env.stepFails .mkElfFile then
    (LOADER_FAILURE, status1, evs ++ label_mk_elf_file_failed)
  else
  let evs := evs ++ [loader_event.acquire .mkElfFile]
  if env.stepFails .extElfFiles then
    (LOADER_FAILURE, status1, evs ++ label_ext_elf_files_failed)
  else
  let evs := evs ++ [loader_event.acquire .extElfFiles]
  if env.stepFails .mkElfSegments then
    (LOADER_FAILURE, status1, evs ++ label_mk_elf_segments_failed)
  else
  let evs := evs ++ [loader_event.acquire .mkElfSegments]
  if env.stepFails .pagePool then
    (LOADER_FAILURE, status1, evs ++ label_page_pool_failed)
  else
  let evs := evs ++ [loader_event.acquire .pagePool]
  if env.stepFails .hugePool then
    (LOADER_FAILURE, status1, evs ++ label_huge_pool_failed)
  else
  let evs := evs ++ [loader_event.acquire .hugePool]
  if env.stepFails .mapDebugRing then
    (LOADER_FAILURE, status1, evs ++ label_map_failed)
  else
  let evs := evs ++ [loader_event.acquire .mapDebugRing]
  if env.stepFails .mapCodeAliases then
    (LOADER_FAILURE, status1, evs ++ label_map_failed)
  else
  let evs := evs ++ [loader_event.acquire .mapCodeAliases]
  if env.stepFails .mapMkElfFile then
    (LOADER_FAILURE, status1, evs ++ label_map_failed)
  else
  let evs := evs ++ [loader_event.acquire .mapMkElfFile]
  if env.stepFails .mapExtElfFiles then
    (LOADER_FAILURE, status1, evs ++ label_map_failed)
  else
  let evs := evs ++ [loader_event.acquire .mapExtElfFiles]
  if env.stepFails .mapMkElfSegments then
    (LOADER_FAILURE, status1, evs ++ label_map_failed)
  else
  let evs := evs ++ [loader_event.acquire .mapMkElfSegments]
  if env.stepFails .mapPagePool then
    (LOADER_FAILURE, status1, evs ++ label_map_failed)
  else
  let evs := evs ++ [loader_event.acquire .mapPagePool]
  if env.stepFails .mapHugePool then
    (LOADER_FAILURE, status1, evs ++ label_map_failed)
  else
  let evs := evs ++ [loader_event.acquire .mapHugePool]
  if env.stepFails .startPerCpu then
    (LOADER_FAILURE, status1,
      evs ++ label_start_per_cpu_failed env.reverseStopFails)
  else
    (LOADER_SUCCESS, vmm_status_t.running,
      evs ++ [loader_event.acquire .startPerCpu])

/-- Embedding of start_vmm: the NULL check on the ioctl pointer, the
copy from user memory (its possible fault is the copyFails flag), the
argument validation, and the dispatch to alloc_and_start_the_vmm. -/
def start_vmm (maxExtensions maxElfFileSize : Nat)
    (ioctl_args : Option start_vmm_args_t) (copyFails : Bool)
    (status : vmm_status_t) (env : loader_env) :
    Int × vmm_status_t × List loader_event :=
  match ioctl_args with
  | none => (LOADER_FAILURE, status, [])
  | some args =>
    if copyFails then (LOADER_FAILURE, status, [])
    else if verify_start_vmm_args maxExtensions maxElfFileSize args ≠ 0 then
      (LOADER_FAILURE, status, [])
    else if (alloc_and_start_the_vmm status env).1 ≠ 0 then
      (LOADER_FAILURE, (alloc_and_start_the_vmm status env).2.1,
        (alloc_and_start_the_vmm status env).2.2)
    else
      (LOADER_SUCCESS, (alloc_and_start_the_vmm status env).2.1,
        (alloc_and_start_the_vmm status env).2.2)

/-- The steps that precede step N in acquisition order. -/
def steps_before (N : loader_step) : List loader_step :=
  acquisition_order.takeWhile (fun M => M != N)

/-- The release actions the cleanup chain owes after a failure at step
N: the allocation steps completed before N, in reverse order. -/
def releases_for (N : loader_step) : List loader_event :=
  (((steps_before N).filter loader_step.isAlloc).reverse).map
    loader_event.release

/-- A fault environment whose first (and only) failing step is N. -/
def env_failing_at (N : loader_step) (reverseStopFails : Bool) :
    loader_env :=
  ⟨fun M => M == N, reverseStopFails, false⟩


/-! ## VMX control state

Embedding of vcpu::write_control_state.  The VMCS field accessors and
the IA32_VMX capability-MSR conventions come from the external
intrinsics library, which is not among the embedded sources; they are
modelled from the spec: a control field set from an
IA32_VMX_TRUE_*_CTLS MSR receives low32 AND high32 (must-be-1 AND
allowed-1), enable ORs the feature bit into the field, and
enable_if_allowed ORs it only when the allowed-1 high dword of the
governing capability MSR has the bit set.  The feature bit positions
are the architectural ones the library encodes. -/

structure vmx_capability_msrs where
  true_pinbased_ctls : Nat
  true_procbased_ctls : Nat
  true_exit_ctls : Nat
  true_entry_ctls : Nat
  procbased_ctls2 : Nat

structure vmcs_ctrl_state where
  pin_based_ctls : Nat
  primary_procbased_ctls : Nat
  secondary_procbased_ctls : Nat
  vm_exit_ctls : Nat
  vm_entry_ctls : Nat
  msr_bitmap_addr : Nat
  io_bitmap_a_addr : Nat
  io_bitmap_b_addr : Nat
deriving DecidableEq

/-- Modelled from the spec: use MSR bitmap, primary processor-based
control bit 28. -/
def bit_use_msr_bitmap : Nat := 0x10000000

/-- Modelled from the spec: use I/O bitmaps, primary processor-based
control bit 25. -/
def bit_use_io_bitmaps : Nat := 0x2000000

/-- Modelled from the spec: activate secondary controls, primary
processor-based control bit 31. -/
def bit_activate_secondary_controls : Nat := 0x80000000

/-- Modelled from the spec: enable RDTSCP, secondary control bit 3. -/
def bit_enable_rdtscp : Nat := 0x8

/-- Modelled from the spec: enable INVPCID, secondary control bit 12. -/
def bit_enable_invpcid : Nat := 0x1000

/-- Modelled from the spec: enable XSAVES/XRSTORS, secondary control
bit 20. -/
def bit_enable_xsaves_xrstors : Nat := 0x100000

/-- Modelled from the spec: save debug controls, VM-exit control
bit 2. -/
def bit_exit_save_debug_controls : Nat := 0x4

/-- Modelled from the spec: host address-space size, VM-exit control
bit 9. -/
def bit_exit_host_address_space_size : Nat := 0x200

/-- Modelled from the spec: load IA32_PERF_GLOBAL_CTRL, VM-exit
control bit 12. -/
def bit_exit_load_perf_global_ctrl : Nat := 0x1000

/-- Modelled from the spec: save IA32_PAT, VM-exit control bit 18. -/
def bit_exit_save_ia32_pat : Nat := 0x40000

/-- Modelled from the spec: load IA32_PAT, VM-exit control bit 19. -/
def bit_exit_load_ia32_pat : Nat := 0x80000

/-- Modelled from the spec: save IA32_EFER, VM-exit control bit 20. -/
def bit_exit_save_ia32_efer : Nat := 0x100000

/-- Modelled from the spec: load IA32_EFER, VM-exit control bit 21. -/
def bit_exit_load_ia32_efer : Nat := 0x200000

/-- Modelled from the spec: load debug controls, VM-entry control
bit 2. -/
def bit_entry_load_debug_controls : Nat := 0x4

/-- Modelled from the spec: IA-32e mode guest, VM-entry control
bit 9. -/
def bit_entry_ia_32e_mode_guest : Nat := 0x200

/-- Modelled from the spec: load IA32_PERF_GLOBAL_CTRL, VM-entry
control bit 13. -/
def bit_entry_load_perf_global_ctrl : Nat := 0x2000

/-- Modelled from the spec: load IA32_PAT, VM-entry control bit 14. -/
def bit_entry_load_ia32_pat : Nat := 0x4000

/-- Modelled from the spec: load IA32_EFER, VM-entry control
bit 15. -/
def bit_entry_load_ia32_efer : Nat := 0x8000

/-- Modelled from the spec: enable_if_allowed is permitted exactly
when the allowed-1 (high) dword of the governing capability MSR has
the feature bit set. -/
def vmx_allowed1 (msr featureBit : Nat) : Bool :=
  (msr >>> 32) &&& featureBit != 0

/-- Embedding of vcpu::write_control_state, one let per source
statement in source order: the four control fields are set to low32
AND high32 of their IA32_VMX_TRUE_*_CTLS MSR, the bitmap addresses
are written, and the requested feature bits are ORed in
(conditionally for the enable_if_allowed calls, and only on a host
vcpu for the three secondary features).  The lets track each field's
running value; the final record is the state after the last
statement. -/
def write_control_state (msrs : vmx_capability_msrs) (is_host_vcpu : Bool)
    (msr_bitmap_phys io_bitmap_a_phys io_bitmap_b_phys : Nat)
    (s0 : vmcs_ctrl_state) : vmcs_ctrl_state :=
  let pin1 :=
    ((msrs.true_pinbased_ctls >>> 0) &&& 0x00000000FFFFFFFF) &&&
    ((msrs.true_pinbased_ctls >>> 32) &&& 0x00000000FFFFFFFF)
  let proc1 :=
    ((msrs.true_procbased_ctls >>> 0) &&& 0x00000000FFFFFFFF) &&&
    ((msrs.true_procbased_ctls >>> 32) &&& 0x00000000FFFFFFFF)
  let exit1 :=
    ((msrs.true_exit_ctls >>> 0) &&& 0x00000000FFFFFFFF) &&&
    ((msrs.true_exit_ctls >>> 32) &&& 0x00000000FFFFFFFF)
  let entry1 :=
    ((msrs.true_entry_ctls >>> 0) &&& 0x00000000FFFFFFFF) &&&
    ((msrs.true_entry_ctls >>> 32) &&& 0x00000000FFFFFFFF)
  let proc2 := proc1 ||| bit_use_msr_bitmap
  let proc3 := proc2 ||| bit_use_io_bitmaps
  let proc4 := if vmx_allowed1 msrs.true_procbased_ctls
      bit_activate_secondary_controls
    then proc3 ||| bit_activate_secondary_controls else proc3
  let sec1 := if is_host_vcpu &&
      vmx_allowed1 msrs.procbased_ctls2 bit_enable_rdtscp
    then s0.secondary_procbased_ctls ||| bit_enable_rdtscp
    else s0.secondary_procbased_ctls
  let sec2 := if is_host_vcpu &&
      vmx_allowed1 msrs.procbased_ctls2 bit_enable_invpcid
    then sec1 ||| bit_enable_invpcid else sec1
  let sec3 := if is_host_vcpu &&
      vmx_allowed1 msrs.procbased_ctls2 bit_enable_xsaves_xrstors
    then sec2 ||| bit_enable_xsaves_xrstors else sec2
  let exit2 := exit1 ||| bit_exit_save_debug_controls
  let exit3 := exit2 ||| bit_exit_host_address_space_size
  let exit4 := if vmx_allowed1 msrs.true_exit_ctls
      bit_exit_load_perf_global_ctrl
    then exit3 ||| bit_exit_load_perf_global_ctrl else exit3
  let exit5 := exit4 ||| bit_exit_save_ia32_pat
  let exit6 := exit5 ||| bit_exit_load_ia32_pat
  let exit7 := exit6 ||| bit_exit_save_ia32_efer
  let exit8 := exit7 ||| bit_exit_load_ia32_efer
  let entry2 := entry1 ||| bit_entry_load_debug_controls
  let entry3 := entry2 ||| bit_entry_ia_32e_mode_guest
  let entry4 := if vmx_allowed1 msrs.true_entry_ctls
      bit_entry_load_perf_global_ctrl
    then entry3 ||| bit_entry_load_perf_global_ctrl else entry3
  let entry5 := entry4 ||| bit_entry_load_ia32_pat
  let entry6 := entry5 ||| bit_entry_load_ia32_efer
  { pin_based_ctls := pin1
    primary_procbased_ctls := proc4
    secondary_procbased_ctls := sec3
    vm_exit_ctls := exit8
    vm_entry_ctls := entry6
    msr_bitmap_addr := msr_bitmap_phys
    io_bitmap_a_addr := io_bitmap_a_phys
    io_bitmap_b_addr := io_bitmap_b_phys }



/-- A concrete valid argument record: ABI version 1, a non-empty
microkernel ELF span, one extension and empty remaining slots. -/
def start_args_example : start_vmm_args_t :=
  ⟨1, ⟨0x1000, 0x40000⟩,
    fun i => if i = 0 then ⟨0x2000, 0x10000⟩ else ⟨0, 0⟩, 0⟩

/-- Bound for the value of a masked-and-shifted descriptor word. -/
theorem masked_shift_le (x M s : Nat) : (x &&& M) >>> s ≤ M >>> s := by
  rw [Nat.shiftRight_eq_div_pow, Nat.shiftRight_eq_div_pow]
  exact Nat.div_le_div_right Nat.and_le_right

/-- A masked-and-shifted word bounded below 2 ^ c has no bits at
positions c and above. -/
theorem masked_testBit_hi_false (x M s c j : Nat) (h : M >>> s < 2 ^ c) :
    ((x &&& M) >>> s).testBit (c + j) = false := by
  apply Nat.testBit_lt_two_pow
  calc (x &&& M) >>> s ≤ M >>> s := masked_shift_le x M s
    _ < 2 ^ c := h
    _ ≤ 2 ^ (c + j) := Nat.pow_le_pow_right (by norm_num) (by omega)

/-- Claim C4 (counterexample): with limit 55 the GDT holds 7 entries, so
index 5's 16-byte descriptor with its second half at index 6 lies
entirely within (limit + 1) / 8 = 7 entries and the System bit of the
all-zero descriptor word is clear, yet get_gdt_descriptor_base fails,
because the code checks index 6 against (limit + 1 - 8) / 8 = 6
entries rather than the claimed (limit + 1) / 8. -/
theorem gdt_base_system16_claimed_bound_cex :
    (0x28 : Nat) >>> 3 = 5 ∧ (5 : Nat) ≠ 0 ∧ (5 : Nat) < (55 + 1) / 8 ∧
    (5 : Nat) + 1 < (55 + 1) / 8 ∧
    (fun _ : Nat => (0 : Nat)) 5 &&& SYSTEM_BIT = 0 ∧
    get_gdt_descriptor_base
      (some ⟨fun _ => 0, 55⟩) 0x28 false = none := by
  decide

/-- Claim C4 (amended): for a non-null gdtr and output pointer and a
non-zero in-range index i = selector >>> 3 whose descriptor has the
System bit clear, if the next entry i + 1 is within
(limit + 1 - 8) / 8 entries (the bound the code actually checks, one
entry stricter than (limit + 1) / 8), then get_gdt_descriptor_base
succeeds and the returned base's bits 32..63 equal the low 32 bits of
entry i + 1. -/
theorem gdt_base_system16_reads_next_entry
    (g : global_descriptor_table_register_t) (sel : Nat)
    (hlim : g.limit < 65536)
    (h0 : sel >>> 3 ≠ 0) (h1 : sel >>> 3 < (g.limit + 1) / 8)
    (hsys : g.base (sel >>> 3) &&& SYSTEM_BIT = 0)
    (h2 : sel >>> 3 + 1 < (g.limit + 1 - 8) / 8) :
    ∃ b, get_gdt_descriptor_base (some g) sel false = some b ∧
      b >>> 32 = g.base (sel >>> 3 + 1) &&& BASE_MASK4 := by
  have hb1 : (g.limit + 1 + (2 ^ 64 - 8)) % 2 ^ 64 = g.limit + 1 - 8 := by
    omega
  refine ⟨((g.base (sel >>> 3) &&& BASE_MASK1) >>> 16) |||
      ((g.base (sel >>> 3) &&& BASE_MASK2) >>> 16) |||
      ((g.base (sel >>> 3) &&& BASE_MASK3) >>> 32) |||
      ((g.base (sel >>> 3 + 1) &&& BASE_MASK4) <<< 32), ?_, ?_⟩
  · simp only [get_gdt_descriptor_base, Nat.add_zero, Bool.false_eq_true,
      if_false]
    rw [if_neg h0, if_neg (by omega), if_pos hsys, if_neg (by omega)]
  · apply Nat.eq_of_testBit_eq
    intro j
    rw [Nat.testBit_shiftRight]
    simp only [Nat.testBit_lor]
    rw [masked_testBit_hi_false _ BASE_MASK1 16 32 j (by decide),
      masked_testBit_hi_false _ BASE_MASK2 16 32 j (by decide),
      masked_testBit_hi_false _ BASE_MASK3 32 32 j (by decide)]
    rw [Nat.testBit_shiftLeft]
    simp

/-- Witness for gdt_base_system16_reads_next_entry at a concrete GDT:
limit 63, selector 0x28 (index 5, second half at index 6 holding
0x12345678). -/
theorem gdt_base_system16_reads_next_entry_witness :
    ∃ b, get_gdt_descriptor_base
        (some gdt_with_sys16_descriptor) 0x28 false = some b ∧
      b >>> 32 = gdt_with_sys16_descriptor.base (0x28 >>> 3 + 1) &&& BASE_MASK4 :=
  gdt_base_system16_reads_next_entry gdt_with_sys16_descriptor 0x28
    (by decide) (by decide) (by decide) (by decide) (by decide)

/-- Claim C5: for a non-null gdtr and output pointer and a non-zero
in-range index whose descriptor word w has the System bit set,
get_gdt_descriptor_base succeeds with base
((w &&& 0x00000000FFFF0000) >>> 16) ||| ((w &&& 0x000000FF00000000) >>> 16)
||| ((w &&& 0xFF00000000000000) >>> 32); in particular a standard
long-mode 8-byte descriptor at selector 0x28 storing base
0x00000000FFFFAB00 yields 0x00000000FFFFAB00. -/
theorem gdt_base_standard_descriptor
    (g : global_descriptor_table_register_t) (sel : Nat)
    (h0 : sel >>> 3 ≠ 0) (h1 : sel >>> 3 < (g.limit + 1) / 8)
    (hsys : g.base (sel >>> 3) &&& SYSTEM_BIT ≠ 0) :
    get_gdt_descriptor_base (some g) sel false =
      some (((g.base (sel >>> 3) &&& BASE_MASK1) >>> 16) |||
            ((g.base (sel >>> 3) &&& BASE_MASK2) >>> 16) |||
            ((g.base (sel >>> 3) &&& BASE_MASK3) >>> 32)) ∧
    get_gdt_descriptor_base (some gdt_with_std_descriptor) 0x28 false =
      some 0x00000000FFFFAB00 := by
  constructor
  · simp only [get_gdt_descriptor_base, Nat.add_zero, Bool.false_eq_true,
      if_false]
    rw [if_neg h0, if_neg (by omega), if_neg hsys]
  · decide

/-- Witness for gdt_base_standard_descriptor at the concrete standard
descriptor GDT. -/
theorem gdt_base_standard_descriptor_witness :
    get_gdt_descriptor_base (some gdt_with_std_descriptor) 0x28 false =
      some 0x00000000FFFFAB00 :=
  (gdt_base_standard_descriptor gdt_with_std_descriptor 0x28
    (by decide) (by decide) (by decide)).2

/-- Claim C6 (counterexample): with limit 15 the GDT holds 2 entries and
selector 8 has the in-range index 1, the gdtr and the output pointer
are non-null, yet get_gdt_descriptor_base fails: the all-zero
descriptor word has the System bit clear, and the second half at index
2 fails the (limit + 1 - 8) / 8 bound.  So failure is not limited to
the three conditions the claim lists. -/
theorem gdt_accessor_failure_iff_cex :
    ¬((15 + 1) / 8 ≤ (8 : Nat) >>> 3) ∧ (8 : Nat) >>> 3 ≠ 0 ∧
    get_gdt_descriptor_base (some ⟨fun _ => 0, 15⟩) 8 false = none := by
  decide

/-- Claim C6 (amended): both accessors fail on a null gdtr; for a
non-null gdtr, get_gdt_descriptor_base fails exactly when the output
pointer is null, the non-zero index is out of range, or the descriptor
has the System bit clear and index + 1 fails the 16-byte bound
(limit + 1 - 8) / 8 (computed with uint64 wraparound);
get_gdt_descriptor_attrib fails exactly when the output pointer is
null or the non-zero index is out of range; and a zero index (the null
selector) with valid pointers writes 0 and succeeds for both. -/
theorem gdt_accessor_failure_characterization
    (g : global_descriptor_table_register_t) (sel : Nat) (outNull : Bool) :
    (get_gdt_descriptor_base none sel outNull = none ∧
      get_gdt_descriptor_attrib none sel outNull = none) ∧
    (get_gdt_descriptor_base (some g) sel outNull = none ↔
      outNull = true ∨ (sel >>> 3 ≠ 0 ∧ ((g.limit + 1) / 8 ≤ sel >>> 3 ∨
        (g.base (sel >>> 3) &&& SYSTEM_BIT = 0 ∧
          ((g.limit + 1 + (2 ^ 64 - 8)) % 2 ^ 64) / 8 ≤ sel >>> 3 + 1)))) ∧
    (get_gdt_descriptor_attrib (some g) sel outNull = none ↔
      outNull = true ∨ (sel >>> 3 ≠ 0 ∧ (g.limit + 1) / 8 ≤ sel >>> 3)) ∧
    (sel >>> 3 = 0 → outNull = false →
      get_gdt_descriptor_base (some g) sel outNull = some 0 ∧
      get_gdt_descriptor_attrib (some g) sel outNull = some 0) := by
  refine ⟨⟨rfl, rfl⟩, ?_, ?_, ?_⟩
  · simp only [get_gdt_descriptor_base, Nat.add_zero]
    split_ifs <;> simp_all
  · simp only [get_gdt_descriptor_attrib]
    split_ifs <;> simp_all
  · intro h0 hn
    simp only [get_gdt_descriptor_base, get_gdt_descriptor_attrib, h0, hn]
    simp

/-- Witness for gdt_accessor_failure_characterization at a concrete GDT
and selector. -/
theorem gdt_accessor_failure_characterization_witness :
    (get_gdt_descriptor_base none 8 false = none ∧
      get_gdt_descriptor_attrib none 8 false = none) ∧
    (get_gdt_descriptor_base (some gdt_with_std_descriptor) 8 false = none ↔
      false = true ∨ ((8 : Nat) >>> 3 ≠ 0 ∧
        ((gdt_with_std_descriptor.limit + 1) / 8 ≤ 8 >>> 3 ∨
        (gdt_with_std_descriptor.base (8 >>> 3) &&& SYSTEM_BIT = 0 ∧
          ((gdt_with_std_descriptor.limit + 1 + (2 ^ 64 - 8)) % 2 ^ 64) / 8 ≤
            8 >>> 3 + 1)))) ∧
    (get_gdt_descriptor_attrib (some gdt_with_std_descriptor) 8 false = none ↔
      false = true ∨ ((8 : Nat) >>> 3 ≠ 0 ∧
        (gdt_with_std_descriptor.limit + 1) / 8 ≤ 8 >>> 3)) ∧
    ((8 : Nat) >>> 3 = 0 → false = false →
      get_gdt_descriptor_base (some gdt_with_std_descriptor) 8 false = some 0 ∧
      get_gdt_descriptor_attrib (some gdt_with_std_descriptor) 8 false = some 0) :=
  gdt_accessor_failure_characterization gdt_with_std_descriptor 8 false

/-- Claim C8: the packed pte_t occupies exactly 8 bytes (its value is
below 2 ^ 64 and the widths sum to 64) with p at bit 0, rw at 1, us at
2, pwt at 3, pcd at 4, a at 5, d at 6, pat at 7, g at 8, avl at bits
9..11, phys at bits 12..51, auto_release at bits 52..58, mpk at bits
59..62 and nx at bit 63. -/
theorem pte_layout (e : pte_t) (h : e.wf) :
    e.toBits < 2 ^ 64 ∧
    (e.toBits >>> 0) % 2 ^ 1 = e.p ∧
    (e.toBits >>> 1) % 2 ^ 1 = e.rw ∧
    (e.toBits >>> 2) % 2 ^ 1 = e.us ∧
    (e.toBits >>> 3) % 2 ^ 1 = e.pwt ∧
    (e.toBits >>> 4) % 2 ^ 1 = e.pcd ∧
    (e.toBits >>> 5) % 2 ^ 1 = e.a ∧
    (e.toBits >>> 6) % 2 ^ 1 = e.d ∧
    (e.toBits >>> 7) % 2 ^ 1 = e.pat ∧
    (e.toBits >>> 8) % 2 ^ 1 = e.g ∧
    (e.toBits >>> 9) % 2 ^ 3 = e.avl ∧
    (e.toBits >>> 12) % 2 ^ 40 = e.phys ∧
    (e.toBits >>> 52) % 2 ^ 7 = e.auto_release ∧
    (e.toBits >>> 59) % 2 ^ 4 = e.mpk ∧
    (e.toBits >>> 63) % 2 ^ 1 = e.nx := by
  obtain ⟨h1, h2, h3, h4, h5, h6, h7, h8, h9, h10, h11, h12, h13, h14⟩ := h
  simp only [pte_t.toBits, Nat.shiftRight_eq_div_pow] at *
  omega

/-- Witness for pte_layout at a concrete well-formed entry. -/
theorem pte_layout_witness :
    pte_example.toBits < 2 ^ 64 ∧
    (pte_example.toBits >>> 0) % 2 ^ 1 = pte_example.p ∧
    (pte_example.toBits >>> 1) % 2 ^ 1 = pte_example.rw ∧
    (pte_example.toBits >>> 2) % 2 ^ 1 = pte_example.us ∧
    (pte_example.toBits >>> 3) % 2 ^ 1 = pte_example.pwt ∧
    (pte_example.toBits >>> 4) % 2 ^ 1 = pte_example.pcd ∧
    (pte_example.toBits >>> 5) % 2 ^ 1 = pte_example.a ∧
    (pte_example.toBits >>> 6) % 2 ^ 1 = pte_example.d ∧
    (pte_example.toBits >>> 7) % 2 ^ 1 = pte_example.pat ∧
    (pte_example.toBits >>> 8) % 2 ^ 1 = pte_example.g ∧
    (pte_example.toBits >>> 9) % 2 ^ 3 = pte_example.avl ∧
    (pte_example.toBits >>> 12) % 2 ^ 40 = pte_example.phys ∧
    (pte_example.toBits >>> 52) % 2 ^ 7 = pte_example.auto_release ∧
    (pte_example.toBits >>> 59) % 2 ^ 4 = pte_example.mpk ∧
    (pte_example.toBits >>> 63) % 2 ^ 1 = pte_example.nx :=
  pte_layout pte_example (by decide)

/-- Claim C9: when the platform allocator returns NULL, alloc_mk_stack
and alloc_mk_huge_pool return LOADER_FAILURE with an all-zero span;
and although the size field is written before the allocation is
attempted, the span invariant holds on every exit path of both
functions. -/
theorem alloc_pool_failure_empty_span (size : Nat) (pa pac : Nat → Nat)
    (stack : span_t) (pool : mutable_span_t)
    (h1 : pa (if size = 0 then HYPERVISOR_MK_STACK_SIZE
              else HYPERVISOR_PAGE_SIZE * size) = 0)
    (h2 : pac (if size = 0 then HYPERVISOR_HUGE_POOL_SIZE
               else HYPERVISOR_PAGE_SIZE * size) = 0) :
    alloc_mk_stack size pa stack = (LOADER_FAILURE, ⟨0, 0⟩) ∧
    alloc_mk_huge_pool size pac pool = (LOADER_FAILURE, ⟨0, 0⟩) ∧
    (∀ (sz : Nat) (f : Nat → Nat) (s : span_t),
      span_invariant (alloc_mk_stack sz f s).2.addr
        (alloc_mk_stack sz f s).2.size) ∧
    (∀ (sz : Nat) (f : Nat → Nat) (s : mutable_span_t),
      span_invariant (alloc_mk_huge_pool sz f s).2.addr
        (alloc_mk_huge_pool sz f s).2.size) := by
  refine ⟨by simp [alloc_mk_stack, h1], by simp [alloc_mk_huge_pool, h2],
    ?_, ?_⟩
  · intro sz f s
    simp only [alloc_mk_stack]
    split_ifs with hz ha ha <;>
      simp_all [span_invariant, HYPERVISOR_MK_STACK_SIZE,
        HYPERVISOR_PAGE_SIZE] <;> omega
  · intro sz f s
    simp only [alloc_mk_huge_pool]
    split_ifs with hz ha ha <;>
      simp_all [span_invariant, HYPERVISOR_HUGE_POOL_SIZE,
        HYPERVISOR_PAGE_SIZE] <;> omega

/-- Witness for alloc_pool_failure_empty_span with an always-NULL
allocator. -/
theorem alloc_pool_failure_empty_span_witness :
    alloc_mk_stack 3 (fun _ => 0) ⟨5, 7⟩ = (LOADER_FAILURE, ⟨0, 0⟩) ∧
    alloc_mk_huge_pool 3 (fun _ => 0) ⟨5, 7⟩ = (LOADER_FAILURE, ⟨0, 0⟩) ∧
    (∀ (sz : Nat) (f : Nat → Nat) (s : span_t),
      span_invariant (alloc_mk_stack sz f s).2.addr
        (alloc_mk_stack sz f s).2.size) ∧
    (∀ (sz : Nat) (f : Nat → Nat) (s : mutable_span_t),
      span_invariant (alloc_mk_huge_pool sz f s).2.addr
        (alloc_mk_huge_pool sz f s).2.size) :=
  alloc_pool_failure_empty_span 3 (fun _ => 0) (fun _ => 0) ⟨5, 7⟩ ⟨5, 7⟩
    (by decide) (by decide)

/-- Claim C10: after free_mk_debug_ring the handle is null, and because
platform_free is a no-op on NULL, running free_mk_debug_ring twice
equals running it once — the operation is idempotent. -/
theorem free_mk_debug_ring_idempotent (s : debug_ring_free_state) :
    (free_mk_debug_ring s).ptr = 0 ∧
    free_mk_debug_ring (free_mk_debug_ring s) = free_mk_debug_ring s := by
  constructor
  · rfl
  · simp [free_mk_debug_ring, platform_free]


/-- Claim C2: starting from Stopped, if every step before N succeeds
and step N fails, alloc_and_start_the_vmm performs exactly the A1
cursor reset and the acquisitions preceding N, then (for X1 only) the
reverse-order per-CPU stop fan-out, then the releases of the
previously completed allocation steps in reverse acquisition order
(the M1-M7 mappings are released as part of the root page table), and
returns LOADER_FAILURE with the status left at Stopped, never set to
Running. -/
theorem rollback_releases_in_reverse (env : loader_env) (N : loader_step)
    (hpre : ∀ M ∈ steps_before N, env.stepFails M = false)
    (hN : env.stepFails N = true) :
    alloc_and_start_the_vmm vmm_status_t.stopped env =
      (LOADER_FAILURE, vmm_status_t.stopped,
        loader_event.resetDebugRing ::
          ((steps_before N).map loader_event.acquire ++
           (if N = loader_step.startPerCpu
            then [loader_event.stopCpusReverse env.reverseStopFails]
            else []) ++
           releases_for N)) := by
  cases N
  case rootPageTable =>
    rw [show steps_before loader_step.rootPageTable = [] from by decide,
      show releases_for loader_step.rootPageTable = [] from by decide]
    simp [alloc_and_start_the_vmm, hN,
      label_root_page_table_failed, label_mk_elf_file_failed, label_ext_elf_files_failed, label_mk_elf_segments_failed, label_page_pool_failed, label_huge_pool_failed, label_map_failed, label_start_per_cpu_failed]
  case mkElfFile =>
    have f0 : env.stepFails loader_step.rootPageTable = false :=
      hpre _ (by decide)
    rw [show steps_before loader_step.mkElfFile = [loader_step.rootPageTable] from by decide,
      show releases_for loader_step.mkElfFile = [loader_event.release loader_step.rootPageTable] from by decide]
    simp [alloc_and_start_the_vmm, hN, f0,
      label_root_page_table_failed, label_mk_elf_file_failed, label_ext_elf_files_failed, label_mk_elf_segments_failed, label_page_pool_failed, label_huge_pool_failed, label_map_failed, label_start_per_cpu_failed]
  case extElfFiles =>
    have f0 : env.stepFails loader_step.rootPageTable = false :=
      hpre _ (by decide)
    have f1 : env.stepFails loader_step.mkElfFile = false :=
      hpre _ (by decide)
    rw [show steps_before loader_step.extElfFiles = [loader_step.rootPageTable, loader_step.mkElfFile] from by decide,
      show releases_for loader_step.extElfFiles = [loader_event.release loader_step.mkElfFile, loader_event.release loader_step.rootPageTable] from by decide]
    simp [alloc_and_start_the_vmm, hN, f0, f1,
      label_root_page_table_failed, label_mk_elf_file_failed, label_ext_elf_files_failed, label_mk_elf_segments_failed, label_page_pool_failed, label_huge_pool_failed, label_map_failed, label_start_per_cpu_failed]
  case mkElfSegments =>
    have f0 : env.stepFails loader_step.rootPageTable = false :=
      hpre _ (by decide)
    have f1 : env.stepFails loader_step.mkElfFile = false :=
      hpre _ (by decide)
    have f2 : env.stepFails loader_step.extElfFiles = false :=
      hpre _ (by decide)
    rw [show steps_before loader_step.mkElfSegments = [loader_step.rootPageTable, loader_step.mkElfFile, loader_step.extElfFiles] from by decide,
      show releases_for loader_step.mkElfSegments = [loader_event.release loader_step.extElfFiles, loader_event.release loader_step.mkElfFile, loader_event.release loader_step.rootPageTable] from by decide]
    simp [alloc_and_start_the_vmm, hN, f0, f1, f2,
      label_root_page_table_failed, label_mk_elf_file_failed, label_ext_elf_files_failed, label_mk_elf_segments_failed, label_page_pool_failed, label_huge_pool_failed, label_map_failed, label_start_per_cpu_failed]
  case pagePool =>
    have f0 : env.stepFails loader_step.rootPageTable = false :=
      hpre _ (by decide)
    have f1 : env.stepFails loader_step.mkElfFile = false :=
      hpre _ (by decide)
    have f2 : env.stepFails loader_step.extElfFiles = false :=
      hpre _ (by decide)
    have f3 : env.stepFails loader_step.mkElfSegments = false :=
      hpre _ (by decide)
    rw [show steps_before loader_step.pagePool = [loader_step.rootPageTable, loader_step.mkElfFile, loader_step.extElfFiles, loader_step.mkElfSegments] from by decide,
      show releases_for loader_step.pagePool = [loader_event.release loader_step.mkElfSegments, loader_event.release loader_step.extElfFiles, loader_event.release loader_step.mkElfFile, loader_event.release loader_step.rootPageTable] from by decide]
    simp [alloc_and_start_the_vmm, hN, f0, f1, f2, f3,
      label_root_page_table_failed, label_mk_elf_file_failed, label_ext_elf_files_failed, label_mk_elf_segments_failed, label_page_pool_failed, label_huge_pool_failed, label_map_failed, label_start_per_cpu_failed]
  case hugePool =>
    have f0 : env.stepFails loader_step.rootPageTable = false :=
      hpre _ (by decide)
    have f1 : env.stepFails loader_step.mkElfFile = false :=
      hpre _ (by decide)
    have f2 : env.stepFails loader_step.extElfFiles = false :=
      hpre _ (by decide)
    have f3 : env.stepFails loader_step.mkElfSegments = false :=
      hpre _ (by decide)
    have f4 : env.stepFails loader_step.pagePool = false :=
      hpre _ (by decide)
    rw [show steps_before loader_step.hugePool = [loader_step.rootPageTable, loader_step.mkElfFile, loader_step.extElfFiles, loader_step.mkElfSegments, loader_step.pagePool] from by decide,
      show releases_for loader_step.hugePool = [loader_event.release loader_step.pagePool, loader_event.release loader_step.mkElfSegments, loader_event.release loader_step.extElfFiles, loader_event.release loader_step.mkElfFile, loader_event.release loader_step.rootPageTable] from by decide]
    simp [alloc_and_start_the_vmm, hN, f0, f1, f2, f3, f4,
      label_root_page_table_failed, label_mk_elf_file_failed, label_ext_elf_files_failed, label_mk_elf_segments_failed, label_page_pool_failed, label_huge_pool_failed, label_map_failed, label_start_per_cpu_failed]
  case mapDebugRing =>
    have f0 : env.stepFails loader_step.rootPageTable = false :=
      hpre _ (by decide)
    have f1 : env.stepFails loader_step.mkElfFile = false :=
      hpre _ (by decide)
    have f2 : env.stepFails loader_step.extElfFiles = false :=
      hpre _ (by decide)
    have f3 : env.stepFails loader_step.mkElfSegments = false :=
      hpre _ (by decide)
    have f4 : env.stepFails loader_step.pagePool = false :=
      hpre _ (by decide)
    have f5 : env.stepFails loader_step.hugePool = false :=
      hpre _ (by decide)
    rw [show steps_before loader_step.mapDebugRing = [loader_step.rootPageTable, loader_step.mkElfFile, loader_step.extElfFiles, loader_step.mkElfSegments, loader_step.pagePool, loader_step.hugePool] from by decide,
      show releases_for loader_step.mapDebugRing = [loader_event.release loader_step.hugePool, loader_event.release loader_step.pagePool, loader_event.release loader_step.mkElfSegments, loader_event.release loader_step.extElfFiles, loader_event.release loader_step.mkElfFile, loader_event.release loader_step.rootPageTable] from by decide]
    simp [alloc_and_start_the_vmm, hN, f0, f1, f2, f3, f4, f5,
      label_root_page_table_failed, label_mk_elf_file_failed, label_ext_elf_files_failed, label_mk_elf_segments_failed, label_page_pool_failed, label_huge_pool_failed, label_map_failed, label_start_per_cpu_failed]
  case mapCodeAliases =>
    have f0 : env.stepFails loader_step.rootPageTable = false :=
      hpre _ (by decide)
    have f1 : env.stepFails loader_step.mkElfFile = false :=
      hpre _ (by decide)
    have f2 : env.stepFails loader_step.extElfFiles = false :=
      hpre _ (by decide)
    have f3 : env.stepFails loader_step.mkElfSegments = false :=
      hpre _ (by decide)
    have f4 : env.stepFails loader_step.pagePool = false :=
      hpre _ (by decide)
    have f5 : env.stepFails loader_step.hugePool = false :=
      hpre _ (by decide)
    have f6 : env.stepFails loader_step.mapDebugRing = false :=
      hpre _ (by decide)
    rw [show steps_before loader_step.mapCodeAliases = [loader_step.rootPageTable, loader_step.mkElfFile, loader_step.extElfFiles, loader_step.mkElfSegments, loader_step.pagePool, loader_step.hugePool, loader_step.mapDebugRing] from by decide,
      show releases_for loader_step.mapCodeAliases = [loader_event.release loader_step.hugePool, loader_event.release loader_step.pagePool, loader_event.release loader_step.mkElfSegments, loader_event.release loader_step.extElfFiles, loader_event.release loader_step.mkElfFile, loader_event.release loader_step.rootPageTable] from by decide]
    simp [alloc_and_start_the_vmm, hN, f0, f1, f2, f3, f4, f5, f6,
      label_root_page_table_failed, label_mk_elf_file_failed, label_ext_elf_files_failed, label_mk_elf_segments_failed, label_page_pool_failed, label_huge_pool_failed, label_map_failed, label_start_per_cpu_failed]
  case mapMkElfFile =>
    have f0 : env.stepFails loader_step.rootPageTable = false :=
      hpre _ (by decide)
    have f1 : env.stepFails loader_step.mkElfFile = false :=
      hpre _ (by decide)
    have f2 : env.stepFails loader_step.extElfFiles = false :=
      hpre _ (by decide)
    have f3 : env.stepFails loader_step.mkElfSegments = false :=
      hpre _ (by decide)
    have f4 : env.stepFails loader_step.pagePool = false :=
      hpre _ (by decide)
    have f5 : env.stepFails loader_step.hugePool = false :=
      hpre _ (by decide)
    have f6 : env.stepFails loader_step.mapDebugRing = false :=
      hpre _ (by decide)
    have f7 : env.stepFails loader_step.mapCodeAliases = false :=
      hpre _ (by decide)
    rw [show steps_before loader_step.mapMkElfFile = [loader_step.rootPageTable, loader_step.mkElfFile, loader_step.extElfFiles, loader_step.mkElfSegments, loader_step.pagePool, loader_step.hugePool, loader_step.mapDebugRing, loader_step.mapCodeAliases] from by decide,
      show releases_for loader_step.mapMkElfFile = [loader_event.release loader_step.hugePool, loader_event.release loader_step.pagePool, loader_event.release loader_step.mkElfSegments, loader_event.release loader_step.extElfFiles, loader_event.release loader_step.mkElfFile, loader_event.release loader_step.rootPageTable] from by decide]
    simp [alloc_and_start_the_vmm, hN, f0, f1, f2, f3, f4, f5, f6, f7,
      label_root_page_table_failed, label_mk_elf_file_failed, label_ext_elf_files_failed, label_mk_elf_segments_failed, label_page_pool_failed, label_huge_pool_failed, label_map_failed, label_start_per_cpu_failed]
  case mapExtElfFiles =>
    have f0 : env.stepFails loader_step.rootPageTable = false :=
      hpre _ (by decide)
    have f1 : env.stepFails loader_step.mkElfFile = false :=
      hpre _ (by decide)
    have f2 : env.stepFails loader_step.extElfFiles = false :=
      hpre _ (by decide)
    have f3 : env.stepFails loader_step.mkElfSegments = false :=
      hpre _ (by decide)
    have f4 : env.stepFails loader_step.pagePool = false :=
      hpre _ (by decide)
    have f5 : env.stepFails loader_step.hugePool = false :=
      hpre _ (by decide)
    have f6 : env.stepFails loader_step.mapDebugRing = false :=
      hpre _ (by decide)
    have f7 : env.stepFails loader_step.mapCodeAliases = false :=
      hpre _ (by decide)
    have f8 : env.stepFails loader_step.mapMkElfFile = false :=
      hpre _ (by decide)
    rw [show steps_before loader_step.mapExtElfFiles = [loader_step.rootPageTable, loader_step.mkElfFile, loader_step.extElfFiles, loader_step.mkElfSegments, loader_step.pagePool, loader_step.hugePool, loader_step.mapDebugRing, loader_step.mapCodeAliases, loader_step.mapMkElfFile] from by decide,
      show releases_for loader_step.mapExtElfFiles = [loader_event.release loader_step.hugePool, loader_event.release loader_step.pagePool, loader_event.release loader_step.mkElfSegments, loader_event.release loader_step.extElfFiles, loader_event.release loader_step.mkElfFile, loader_event.release loader_step.rootPageTable] from by decide]
    simp [alloc_and_start_the_vmm, hN, f0, f1, f2, f3, f4, f5, f6, f7, f8,
      label_root_page_table_failed, label_mk_elf_file_failed, label_ext_elf_files_failed, label_mk_elf_segments_failed, label_page_pool_failed, label_huge_pool_failed, label_map_failed, label_start_per_cpu_failed]
  case mapMkElfSegments =>
    have f0 : env.stepFails loader_step.rootPageTable = false :=
      hpre _ (by decide)
    have f1 : env.stepFails loader_step.mkElfFile = false :=
      hpre _ (by decide)
    have f2 : env.stepFails loader_step.extElfFiles = false :=
      hpre _ (by decide)
    have f3 : env.stepFails loader_step.mkElfSegments = false :=
      hpre _ (by decide)
    have f4 : env.stepFails loader_step.pagePool = false :=
      hpre _ (by decide)
    have f5 : env.stepFails loader_step.hugePool = false :=
      hpre _ (by decide)
    have f6 : env.stepFails loader_step.mapDebugRing = false :=
      hpre _ (by decide)
    have f7 : env.stepFails loader_step.mapCodeAliases = false :=
      hpre _ (by decide)
    have f8 : env.stepFails loader_step.mapMkElfFile = false :=
      hpre _ (by decide)
    have f9 : env.stepFails loader_step.mapExtElfFiles = false :=
      hpre _ (by decide)
    rw [show steps_before loader_step.mapMkElfSegments = [loader_step.rootPageTable, loader_step.mkElfFile, loader_step.extElfFiles, loader_step.mkElfSegments, loader_step.pagePool, loader_step.hugePool, loader_step.mapDebugRing, loader_step.mapCodeAliases, loader_step.mapMkElfFile, loader_step.mapExtElfFiles] from by decide,
      show releases_for loader_step.mapMkElfSegments = [loader_event.release loader_step.hugePool, loader_event.release loader_step.pagePool, loader_event.release loader_step.mkElfSegments, loader_event.release loader_step.extElfFiles, loader_event.release loader_step.mkElfFile, loader_event.release loader_step.rootPageTable] from by decide]
    simp [alloc_and_start_the_vmm, hN, f0, f1, f2, f3, f4, f5, f6, f7, f8, f9,
      label_root_page_table_failed, label_mk_elf_file_failed, label_ext_elf_files_failed, label_mk_elf_segments_failed, label_page_pool_failed, label_huge_pool_failed, label_map_failed, label_start_per_cpu_failed]
  case mapPagePool =>
    have f0 : env.stepFails loader_step.rootPageTable = false :=
      hpre _ (by decide)
    have f1 : env.stepFails loader_step.mkElfFile = false :=
      hpre _ (by decide)
    have f2 : env.stepFails loader_step.extElfFiles = false :=
      hpre _ (by decide)
    have f3 : env.stepFails loader_step.mkElfSegments = false :=
      hpre _ (by decide)
    have f4 : env.stepFails loader_step.pagePool = false :=
      hpre _ (by decide)
    have f5 : env.stepFails loader_step.hugePool = false :=
      hpre _ (by decide)
    have f6 : env.stepFails loader_step.mapDebugRing = false :=
      hpre _ (by decide)
    have f7 : env.stepFails loader_step.mapCodeAliases = false :=
      hpre _ (by decide)
    have f8 : env.stepFails loader_step.mapMkElfFile = false :=
      hpre _ (by decide)
    have f9 : env.stepFails loader_step.mapExtElfFiles = false :=
      hpre _ (by decide)
    have f10 : env.stepFails loader_step.mapMkElfSegments = false :=
      hpre _ (by decide)
    rw [show steps_before loader_step.mapPagePool = [loader_step.rootPageTable, loader_step.mkElfFile, loader_step.extElfFiles, loader_step.mkElfSegments, loader_step.pagePool, loader_step.hugePool, loader_step.mapDebugRing, loader_step.mapCodeAliases, loader_step.mapMkElfFile, loader_step.mapExtElfFiles, loader_step.mapMkElfSegments] from by decide,
      show releases_for loader_step.mapPagePool = [loader_event.release loader_step.hugePool, loader_event.release loader_step.pagePool, loader_event.release loader_step.mkElfSegments, loader_event.release loader_step.extElfFiles, loader_event.release loader_step.mkElfFile, loader_event.release loader_step.rootPageTable] from by decide]
    simp [alloc_and_start_the_vmm, hN, f0, f1, f2, f3, f4, f5, f6, f7, f8, f9, f10,
      label_root_page_table_failed, label_mk_elf_file_failed, label_ext_elf_files_failed, label_mk_elf_segments_failed, label_page_pool_failed, label_huge_pool_failed, label_map_failed, label_start_per_cpu_failed]
  case mapHugePool =>
    have f0 : env.stepFails loader_step.rootPageTable = false :=
      hpre _ (by decide)
    have f1 : env.stepFails loader_step.mkElfFile = false :=
      hpre _ (by decide)
    have f2 : env.stepFails loader_step.extElfFiles = false :=
      hpre _ (by decide)
    have f3 : env.stepFails loader_step.mkElfSegments = false :=
      hpre _ (by decide)
    have f4 : env.stepFails loader_step.pagePool = false :=
      hpre _ (by decide)
    have f5 : env.stepFails loader_step.hugePool = false :=
      hpre _ (by decide)
    have f6 : env.stepFails loader_step.mapDebugRing = false :=
      hpre _ (by decide)
    have f7 : env.stepFails loader_step.mapCodeAliases = false :=
      hpre _ (by decide)
    have f8 : env.stepFails loader_step.mapMkElfFile = false :=
      hpre _ (by decide)
    have f9 : env.stepFails loader_step.mapExtElfFiles = false :=
      hpre _ (by decide)
    have f10 : env.stepFails loader_step.mapMkElfSegments = false :=
      hpre _ (by decide)
    have f11 : env.stepFails loader_step.mapPagePool = false :=
      hpre _ (by decide)
    rw [show steps_before loader_step.mapHugePool = [loader_step.rootPageTable, loader_step.mkElfFile, loader_step.extElfFiles, loader_step.mkElfSegments, loader_step.pagePool, loader_step.hugePool, loader_step.mapDebugRing, loader_step.mapCodeAliases, loader_step.mapMkElfFile, loader_step.mapExtElfFiles, loader_step.mapMkElfSegments, loader_step.mapPagePool] from by decide,
      show releases_for loader_step.mapHugePool = [loader_event.release loader_step.hugePool, loader_event.release loader_step.pagePool, loader_event.release loader_step.mkElfSegments, loader_event.release loader_step.extElfFiles, loader_event.release loader_step.mkElfFile, loader_event.release loader_step.rootPageTable] from by decide]
    simp [alloc_and_start_the_vmm, hN, f0, f1, f2, f3, f4, f5, f6, f7, f8, f9, f10, f11,
      label_root_page_table_failed, label_mk_elf_file_failed, label_ext_elf_files_failed, label_mk_elf_segments_failed, label_page_pool_failed, label_huge_pool_failed, label_map_failed, label_start_per_cpu_failed]
  case startPerCpu =>
    have f0 : env.stepFails loader_step.rootPageTable = false :=
      hpre _ (by decide)
    have f1 : env.stepFails loader_step.mkElfFile = false :=
      hpre _ (by decide)
    have f2 : env.stepFails loader_step.extElfFiles = false :=
      hpre _ (by decide)
    have f3 : env.stepFails loader_step.mkElfSegments = false :=
      hpre _ (by decide)
    have f4 : env.stepFails loader_step.pagePool = false :=
      hpre _ (by decide)
    have f5 : env.stepFails loader_step.hugePool = false :=
      hpre _ (by decide)
    have f6 : env.stepFails loader_step.mapDebugRing = false :=
      hpre _ (by decide)
    have f7 : env.stepFails loader_step.mapCodeAliases = false :=
      hpre _ (by decide)
    have f8 : env.stepFails loader_step.mapMkElfFile = false :=
      hpre _ (by decide)
    have f9 : env.stepFails loader_step.mapExtElfFiles = false :=
      hpre _ (by decide)
    have f10 : env.stepFails loader_step.mapMkElfSegments = false :=
      hpre _ (by decide)
    have f11 : env.stepFails loader_step.mapPagePool = false :=
      hpre _ (by decide)
    have f12 : env.stepFails loader_step.mapHugePool = false :=
      hpre _ (by decide)
    rw [show steps_before loader_step.startPerCpu = [loader_step.rootPageTable, loader_step.mkElfFile, loader_step.extElfFiles, loader_step.mkElfSegments, loader_step.pagePool, loader_step.hugePool, loader_step.mapDebugRing, loader_step.mapCodeAliases, loader_step.mapMkElfFile, loader_step.mapExtElfFiles, loader_step.mapMkElfSegments, loader_step.mapPagePool, loader_step.mapHugePool] from by decide,
      show releases_for loader_step.startPerCpu = [loader_event.release loader_step.hugePool, loader_event.release loader_step.pagePool, loader_event.release loader_step.mkElfSegments, loader_event.release loader_step.extElfFiles, loader_event.release loader_step.mkElfFile, loader_event.release loader_step.rootPageTable] from by decide]
    simp [alloc_and_start_the_vmm, hN, f0, f1, f2, f3, f4, f5, f6, f7, f8, f9, f10, f11, f12,
      label_root_page_table_failed, label_mk_elf_file_failed, label_ext_elf_files_failed, label_mk_elf_segments_failed, label_page_pool_failed, label_huge_pool_failed, label_map_failed, label_start_per_cpu_failed]

/-- Witness for rollback_releases_in_reverse: the page-pool step (A6)
fails first. -/
theorem rollback_releases_in_reverse_witness :
    alloc_and_start_the_vmm vmm_status_t.stopped
        (env_failing_at loader_step.pagePool false) =
      (LOADER_FAILURE, vmm_status_t.stopped,
        loader_event.resetDebugRing ::
          ((steps_before loader_step.pagePool).map loader_event.acquire ++
           (if loader_step.pagePool = loader_step.startPerCpu
            then [loader_event.stopCpusReverse
              (env_failing_at loader_step.pagePool false).reverseStopFails]
            else []) ++
           releases_for loader_step.pagePool)) :=
  rollback_releases_in_reverse (env_failing_at loader_step.pagePool false)
    loader_step.pagePool (by decide) (by decide)

/-- Claim C1 (counterexample): with every acquisition succeeding, the
X1 fan-out failing and the reverse stop fan-out also failing, the
reverse fan-out is performed but the final status is Stopped, not
Corrupt — the rollback failure is only logged. -/
theorem corrupt_after_failed_rollback_cex :
    (env_failing_at loader_step.startPerCpu true).reverseStopFails = true ∧
    (alloc_and_start_the_vmm vmm_status_t.stopped
      (env_failing_at loader_step.startPerCpu true)).1 = LOADER_FAILURE ∧
    loader_event.stopCpusReverse true ∈
      (alloc_and_start_the_vmm vmm_status_t.stopped
        (env_failing_at loader_step.startPerCpu true)).2.2 ∧
    (alloc_and_start_the_vmm vmm_status_t.stopped
      (env_failing_at loader_step.startPerCpu true)).2.1 ≠
      vmm_status_t.corrupt := by
  decide

/-- Claim C1 (amended): when the X1 fan-out fails and the reverse stop
fan-out also fails, alloc_and_start_the_vmm performs the reverse
fan-out, returns LOADER_FAILURE and leaves the global status unchanged
at Stopped (the rollback failure is only logged, not promoted to
Corrupt); independently, whenever the global status is Corrupt, every
alloc_and_start_the_vmm call fails immediately without performing any
acquisition step. -/
theorem failed_rollback_logged_and_corrupt_fails_fast (env : loader_env)
    (hok : ∀ M ∈ steps_before loader_step.startPerCpu,
      env.stepFails M = false)
    (hN : env.stepFails loader_step.startPerCpu = true)
    (hrs : env.reverseStopFails = true) :
    (alloc_and_start_the_vmm vmm_status_t.stopped env).1 = LOADER_FAILURE ∧
    (alloc_and_start_the_vmm vmm_status_t.stopped env).2.1 =
      vmm_status_t.stopped ∧
    loader_event.stopCpusReverse true ∈
      (alloc_and_start_the_vmm vmm_status_t.stopped env).2.2 ∧
    (∀ env2 : loader_env, alloc_and_start_the_vmm vmm_status_t.corrupt env2 =
      (LOADER_FAILURE, vmm_status_t.corrupt, [])) := by
  have f0 : env.stepFails loader_step.rootPageTable = false :=
    hok _ (by decide)
  have f1 : env.stepFails loader_step.mkElfFile = false := hok _ (by decide)
  have f2 : env.stepFails loader_step.extElfFiles = false := hok _ (by decide)
  have f3 : env.stepFails loader_step.mkElfSegments = false :=
    hok _ (by decide)
  have f4 : env.stepFails loader_step.pagePool = false := hok _ (by decide)
  have f5 : env.stepFails loader_step.hugePool = false := hok _ (by decide)
  have f6 : env.stepFails loader_step.mapDebugRing = false :=
    hok _ (by decide)
  have f7 : env.stepFails loader_step.mapCodeAliases = false :=
    hok _ (by decide)
  have f8 : env.stepFails loader_step.mapMkElfFile = false :=
    hok _ (by decide)
  have f9 : env.stepFails loader_step.mapExtElfFiles = false :=
    hok _ (by decide)
  have f10 : env.stepFails loader_step.mapMkElfSegments = false :=
    hok _ (by decide)
  have f11 : env.stepFails loader_step.mapPagePool = false :=
    hok _ (by decide)
  have f12 : env.stepFails loader_step.mapHugePool = false :=
    hok _ (by decide)
  refine ⟨?_, ?_, ?_, ?_⟩
  · simp [alloc_and_start_the_vmm, hN, hrs, f0, f1, f2, f3, f4, f5, f6, f7,
      f8, f9, f10, f11, f12]
  · simp [alloc_and_start_the_vmm, hN, hrs, f0, f1, f2, f3, f4, f5, f6, f7,
      f8, f9, f10, f11, f12]
  · simp [alloc_and_start_the_vmm, hN, hrs, f0, f1, f2, f3, f4, f5, f6, f7,
      f8, f9, f10, f11, f12, label_start_per_cpu_failed, label_map_failed,
      label_huge_pool_failed, label_page_pool_failed,
      label_mk_elf_segments_failed, label_ext_elf_files_failed,
      label_mk_elf_file_failed, label_root_page_table_failed]
  · intro env2
    simp [alloc_and_start_the_vmm]

/-- Witness for failed_rollback_logged_and_corrupt_fails_fast with the
concrete fault environment whose only failing step is X1 and whose
reverse stop fan-out fails. -/
theorem failed_rollback_logged_witness :
    (alloc_and_start_the_vmm vmm_status_t.stopped
      (env_failing_at loader_step.startPerCpu true)).1 = LOADER_FAILURE ∧
    (alloc_and_start_the_vmm vmm_status_t.stopped
      (env_failing_at loader_step.startPerCpu true)).2.1 =
      vmm_status_t.stopped ∧
    loader_event.stopCpusReverse true ∈
      (alloc_and_start_the_vmm vmm_status_t.stopped
        (env_failing_at loader_step.startPerCpu true)).2.2 ∧
    (∀ env2 : loader_env, alloc_and_start_the_vmm vmm_status_t.corrupt env2 =
      (LOADER_FAILURE, vmm_status_t.corrupt, [])) :=
  failed_rollback_logged_and_corrupt_fails_fast
    (env_failing_at loader_step.startPerCpu true) (by decide) (by decide)
    (by decide)

/-- Characterization of the per-extension validation check. -/
theorem verify_ext_elf_file_iff (m : Nat) (f : span_t) :
    verify_ext_elf_file m f = true ↔
      ((f.addr = 0 ↔ f.size = 0) ∧ f.size < m) := by
  unfold verify_ext_elf_file
  split_ifs <;> simp_all <;> omega

/-- Claim C3: verify_start_vmm_args accepts exactly when the version is
1, the microkernel ELF span is non-null with size strictly between 0
and HYPERVISOR_MAX_ELF_FILE_SIZE, the first extension is non-null, and
every extension slot has addr null iff size zero and size below
HYPERVISOR_MAX_ELF_FILE_SIZE; and when it rejects, start_vmm returns
failure with the status unchanged and no acquisition step performed. -/
theorem verify_start_vmm_args_accepts_iff
    (maxExtensions maxElfFileSize : Nat) (args : start_vmm_args_t) :
    (verify_start_vmm_args maxExtensions maxElfFileSize args =
        LOADER_SUCCESS ↔
      (args.ver = 1 ∧ args.mk_elf_file.addr ≠ 0 ∧
       0 < args.mk_elf_file.size ∧
       args.mk_elf_file.size < maxElfFileSize ∧
       (args.ext_elf_files 0).addr ≠ 0 ∧
       ∀ i < maxExtensions,
         ((args.ext_elf_files i).addr = 0 ↔
           (args.ext_elf_files i).size = 0) ∧
         (args.ext_elf_files i).size < maxElfFileSize)) ∧
    (∀ (copyFails : Bool) (status : vmm_status_t) (env : loader_env),
      verify_start_vmm_args maxExtensions maxElfFileSize args ≠ 0 →
      start_vmm maxExtensions maxElfFileSize (some args) copyFails status
        env = (LOADER_FAILURE, status, [])) := by
  constructor
  · unfold verify_start_vmm_args
    split_ifs with h1 h2 h3 h4 h5 h6 <;>
      simp_all [LOADER_SUCCESS, LOADER_FAILURE, List.all_eq_true,
        verify_ext_elf_file_iff] <;>
      omega
  · intro copyFails status env hv
    cases copyFails
    · simp [start_vmm, hv]
    · simp [start_vmm]

/-- Witness for verify_start_vmm_args_accepts_iff at a concrete
argument record. -/
theorem verify_start_vmm_args_accepts_iff_witness :
    (verify_start_vmm_args 2 0x800000 start_args_example = LOADER_SUCCESS ↔
      (start_args_example.ver = 1 ∧
       start_args_example.mk_elf_file.addr ≠ 0 ∧
       0 < start_args_example.mk_elf_file.size ∧
       start_args_example.mk_elf_file.size < 0x800000 ∧
       (start_args_example.ext_elf_files 0).addr ≠ 0 ∧
       ∀ i < 2,
         ((start_args_example.ext_elf_files i).addr = 0 ↔
           (start_args_example.ext_elf_files i).size = 0) ∧
         (start_args_example.ext_elf_files i).size < 0x800000)) ∧
    (∀ (copyFails : Bool) (status : vmm_status_t) (env : loader_env),
      verify_start_vmm_args 2 0x800000 start_args_example ≠ 0 →
      start_vmm 2 0x800000 (some start_args_example) copyFails status env =
        (LOADER_FAILURE, status, [])) :=
  verify_start_vmm_args_accepts_iff 2 0x800000 start_args_example

/-- Claim C7: write_control_state sets the pin-based, primary
processor-based, VM-exit and VM-entry control fields to the AND of
the low and high 32 bits of the corresponding IA32_VMX_TRUE_*_CTLS
MSR with the requested features ORed in — use MSR bitmap, use I/O
bitmaps and (when allowed) activate secondary controls on the primary
controls; save debug controls, host address-space size, (when
allowed) load IA32_PERF_GLOBAL_CTRL, save/load IA32_PAT and save/load
IA32_EFER on the exit controls; load debug controls, IA-32e mode
guest, (when allowed) load IA32_PERF_GLOBAL_CTRL, load IA32_PAT and
load IA32_EFER on the entry controls — while RDTSCP, INVPCID and
XSAVES/XRSTORS are ORed into the secondary controls only when allowed
on a host vcpu, and the MSR/I-O bitmap addresses are written. -/
theorem write_control_state_sets_controls (msrs : vmx_capability_msrs)
    (is_host_vcpu : Bool) (ma ia ib : Nat) (s0 : vmcs_ctrl_state) :
    (write_control_state msrs is_host_vcpu ma ia ib s0).pin_based_ctls =
      ((msrs.true_pinbased_ctls >>> 0) &&& 0x00000000FFFFFFFF) &&&
      ((msrs.true_pinbased_ctls >>> 32) &&& 0x00000000FFFFFFFF) ∧
    (write_control_state msrs is_host_vcpu ma ia ib
        s0).primary_procbased_ctls =
      ((((msrs.true_procbased_ctls >>> 0) &&& 0x00000000FFFFFFFF) &&&
        ((msrs.true_procbased_ctls >>> 32) &&& 0x00000000FFFFFFFF)) |||
       bit_use_msr_bitmap ||| bit_use_io_bitmaps |||
       (if vmx_allowed1 msrs.true_procbased_ctls
          bit_activate_secondary_controls
        then bit_activate_secondary_controls else 0)) ∧
    (write_control_state msrs is_host_vcpu ma ia ib s0).vm_exit_ctls =
      ((((msrs.true_exit_ctls >>> 0) &&& 0x00000000FFFFFFFF) &&&
        ((msrs.true_exit_ctls >>> 32) &&& 0x00000000FFFFFFFF)) |||
       bit_exit_save_debug_controls ||| bit_exit_host_address_space_size |||
       (if vmx_allowed1 msrs.true_exit_ctls bit_exit_load_perf_global_ctrl
        then bit_exit_load_perf_global_ctrl else 0) |||
       bit_exit_save_ia32_pat ||| bit_exit_load_ia32_pat |||
       bit_exit_save_ia32_efer ||| bit_exit_load_ia32_efer) ∧
    (write_control_state msrs is_host_vcpu ma ia ib s0).vm_entry_ctls =
      ((((msrs.true_entry_ctls >>> 0) &&& 0x00000000FFFFFFFF) &&&
        ((msrs.true_entry_ctls >>> 32) &&& 0x00000000FFFFFFFF)) |||
       bit_entry_load_debug_controls ||| bit_entry_ia_32e_mode_guest |||
       (if vmx_allowed1 msrs.true_entry_ctls bit_entry_load_perf_global_ctrl
        then bit_entry_load_perf_global_ctrl else 0) |||
       bit_entry_load_ia32_pat ||| bit_entry_load_ia32_efer) ∧
    (write_control_state msrs is_host_vcpu ma ia ib
        s0).secondary_procbased_ctls =
      (s0.secondary_procbased_ctls |||
       (if is_host_vcpu &&
          vmx_allowed1 msrs.procbased_ctls2 bit_enable_rdtscp
        then bit_enable_rdtscp else 0) |||
       (if is_host_vcpu &&
          vmx_allowed1 msrs.procbased_ctls2 bit_enable_invpcid
        then bit_enable_invpcid else 0) |||
       (if is_host_vcpu &&
          vmx_allowed1 msrs.procbased_ctls2 bit_enable_xsaves_xrstors
        then bit_enable_xsaves_xrstors else 0)) ∧
    (write_control_state msrs is_host_vcpu ma ia ib s0).msr_bitmap_addr =
      ma ∧
    (write_control_state msrs is_host_vcpu ma ia ib s0).io_bitmap_a_addr =
      ia ∧
    (write_control_state msrs is_host_vcpu ma ia ib s0).io_bitmap_b_addr =
      ib := by
  refine ⟨?_, ?_, ?_, ?_, ?_, ?_, ?_, ?_⟩ <;>
    simp only [write_control_state] <;>
    split_ifs <;>
    simp [Nat.or_zero]
